import Mathlib

/-!
Formal model of the autonomous agent navigation and tactical decision layer
of the tank/MOBA game. Each definition is a shallow embedding of the
correspondingly named JavaScript function; file and line references are given
in the doc comments. Geometry is modelled over the reals, `Math.atan2(y, x)`
as the complex argument of `x + y*i`, and values that can be JS `null` as
`Option`. Backend navigation-mesh queries (Recast/Detour) are passed in as
oracle function parameters, since the wrappers under verification treat them
as opaque.
-/

noncomputable section

namespace TankAI

/-- A 3D point/vector with real coordinates, modelling `THREE.Vector3`. -/
structure Vec3 where
  x : ℝ
  y : ℝ
  z : ℝ

/-- Euclidean length, modelling `THREE.Vector3.length`. -/
def norm3 (v : Vec3) : ℝ :=
  Real.sqrt (v.x ^ 2 + v.y ^ 2 + v.z ^ 2)

/-- Euclidean distance, modelling `THREE.Vector3.distanceTo`. -/
def dist3 (a b : Vec3) : ℝ :=
  Real.sqrt ((b.x - a.x) ^ 2 + (b.y - a.y) ^ 2 + (b.z - a.z) ^ 2)

/-- Modelling `v.setY(0)`. -/
def setY0 (v : Vec3) : Vec3 :=
  ⟨v.x, 0, v.z⟩

/-- Modelling `THREE.Vector3.normalize`, which divides by `length() || 1`
(so the zero vector stays the zero vector). -/
def normalize3 (v : Vec3) : Vec3 :=
  let l := if norm3 v = 0 then 1 else norm3 v
  ⟨v.x / l, v.y / l, v.z / l⟩

/-- Modelling `Math.max(-1, Math.min(1, v))`, the input clamp used by all
steering code. -/
def clamp11 (v : ℝ) : ℝ :=
  max (-1) (min 1 v)

/-- Modelling `Math.atan2 y x` as the argument of the complex number
`x + y*i`, which lies in `(-π, π]` exactly like the JS function. -/
def atan2 (y x : ℝ) : ℝ :=
  Complex.arg ⟨x, y⟩

/-! ### Navigation services

`NavMeshSystem` is the infantry navigation wrapper (src/unnamed/part_003),
`MOBANavSystem` the MOBA one (src/src/MOBANavSystem.js). Both wrap an
opaque `NavMeshQuery.computePath` backend, modelled as the oracle argument
`computePath`; `hasQuery` models `this.navMeshQuery !== null`. -/

/-- Result of the Recast `NavMeshQuery.computePath` backend call. -/
structure NavQueryResult where
  success : Bool
  path : List Vec3

/-- State of `NavMeshSystem` (src/unnamed/part_003). -/
structure NavMeshSystem where
  ready : Bool
  hasQuery : Bool

/-- Model of `NavMeshSystem.findPath` (src/unnamed/part_003, lines 87-102):
returns `null` when the service is not ready, when the query object is
absent, when the query fails, or when the returned path is empty; otherwise
returns the waypoint list. -/
def NavMeshSystem.findPath (s : NavMeshSystem)
    (computePath : Vec3 → Vec3 → NavQueryResult)
    (startPos endPos : Vec3) : Option (List Vec3) :=
  if s.ready = false ∨ s.hasQuery = false then none
  else
    let result := computePath startPos endPos
    if result.success = false ∨ result.path.length = 0 then none
    else some result.path

/-- State of `MOBANavSystem` (src/src/MOBANavSystem.js). -/
structure MOBANavSystem where
  ready : Bool
  hasQuery : Bool

/-- Model of `MOBANavSystem.findPath` (src/src/MOBANavSystem.js, lines 116-144):
when the service is not ready, or the backend query fails or returns an
empty path, it returns the one-waypoint direct fallback path
`[new THREE.Vector3(end.x, end.y, end.z)]`; it never returns `null`
(`none` is unreachable, kept only so the JS `null` would be expressible). -/
def MOBANavSystem.findPath (s : MOBANavSystem)
    (computePath : Vec3 → Vec3 → NavQueryResult)
    (startPos endPos : Vec3) : Option (List Vec3) :=
  if s.ready = false ∨ s.hasQuery = false then
    some [⟨endPos.x, endPos.y, endPos.z⟩]
  else
    let result := computePath startPos endPos
    if result.success = true ∧ 0 < result.path.length then some result.path
    else some [⟨endPos.x, endPos.y, endPos.z⟩]

/-- C1: counterexample. The claim says every navigation service's `findPath`
returns `null` whenever `ready = false`; but `MOBANavSystem.findPath` with
`ready = false` returns the one-waypoint fallback path, not `null`. -/
theorem mobaNav_findPath_notReady_not_null :
    MOBANavSystem.findPath ⟨false, false⟩ (fun _ _ => ⟨false, []⟩)
      ⟨0, 0, 0⟩ ⟨1, 2, 3⟩ ≠ none := by
  simp [MOBANavSystem.findPath]

/-- C1 (amended): when `ready = false`, the infantry `NavMeshSystem.findPath`
returns `null` while `MOBANavSystem.findPath` returns the one-waypoint
direct fallback path `[goal]`; `NavMeshSystem.findPath` also returns `null`
(not an error) when the backend query fails or yields an empty path; and
`MOBANavSystem.findPath` never returns `null` in any state — whenever it is
ready but the backend query fails or yields an empty path it returns the
same one-waypoint fallback `[goal]`. -/
theorem findPath_notReady_fallback (s1 : NavMeshSystem) (s2 : MOBANavSystem)
    (q : Vec3 → Vec3 → NavQueryResult) (a b : Vec3)
    (h1 : s1.ready = false) (h2 : s2.ready = false) :
    NavMeshSystem.findPath s1 q a b = none ∧
    MOBANavSystem.findPath s2 q a b = some [⟨b.x, b.y, b.z⟩] ∧
    (∀ (s1' : NavMeshSystem), (q a b).success = false →
      NavMeshSystem.findPath s1' q a b = none) ∧
    (∀ (s1' : NavMeshSystem), (q a b).path.length = 0 →
      NavMeshSystem.findPath s1' q a b = none) ∧
    (∀ (s2' : MOBANavSystem), MOBANavSystem.findPath s2' q a b ≠ none) ∧
    (∀ (s2' : MOBANavSystem), s2'.ready = true → s2'.hasQuery = true →
      ((q a b).success = false ∨ (q a b).path.length = 0) →
      MOBANavSystem.findPath s2' q a b = some [⟨b.x, b.y, b.z⟩]) := by
  refine ⟨?_, ?_, ?_, ?_, ?_, ?_⟩
  · simp [NavMeshSystem.findPath, h1]
  · simp [MOBANavSystem.findPath, h2]
  · intro s1' hq
    unfold NavMeshSystem.findPath
    split
    · rfl
    · simp [hq]
  · intro s1' hq
    unfold NavMeshSystem.findPath
    split
    · rfl
    · simp [hq]
  · intro s2'
    unfold MOBANavSystem.findPath
    by_cases h : s2'.ready = false ∨ s2'.hasQuery = false
    · rw [if_pos h]
      simp
    · rw [if_neg h]
      dsimp only
      split_ifs <;> simp
  · intro s2' hr hh hq
    unfold MOBANavSystem.findPath
    rw [if_neg (by simp [hr, hh])]
    rcases hq with h | h
    · rw [if_neg (by simp [h])]
    · rw [if_neg (by rintro ⟨-, hlen⟩; omega)]

/-- C1 witness: the amended fallback behaviour at concrete states — a
not-ready service, a ready service whose backend query fails, and a ready
service whose backend query succeeds with an empty path. -/
theorem findPath_notReady_fallback_witness :
    NavMeshSystem.findPath ⟨false, true⟩ (fun _ _ => ⟨false, []⟩)
      ⟨0, 0, 0⟩ ⟨1, 2, 3⟩ = none ∧
    MOBANavSystem.findPath ⟨false, true⟩ (fun _ _ => ⟨false, []⟩)
      ⟨0, 0, 0⟩ ⟨1, 2, 3⟩ = some [⟨1, 2, 3⟩] ∧
    NavMeshSystem.findPath ⟨true, true⟩ (fun _ _ => ⟨false, []⟩)
      ⟨0, 0, 0⟩ ⟨1, 2, 3⟩ = none ∧
    NavMeshSystem.findPath ⟨true, true⟩ (fun _ _ => ⟨true, []⟩)
      ⟨0, 0, 0⟩ ⟨1, 2, 3⟩ = none ∧
    MOBANavSystem.findPath ⟨true, true⟩ (fun _ _ => ⟨false, []⟩)
      ⟨0, 0, 0⟩ ⟨1, 2, 3⟩ ≠ none ∧
    MOBANavSystem.findPath ⟨true, true⟩ (fun _ _ => ⟨false, []⟩)
      ⟨0, 0, 0⟩ ⟨1, 2, 3⟩ = some [⟨1, 2, 3⟩] := by
  have h := findPath_notReady_fallback ⟨false, true⟩ ⟨false, true⟩
    (fun _ _ => ⟨false, []⟩) ⟨0, 0, 0⟩ ⟨1, 2, 3⟩ rfl rfl
  have h' := findPath_notReady_fallback ⟨false, true⟩ ⟨false, true⟩
    (fun _ _ => ⟨true, []⟩) ⟨0, 0, 0⟩ ⟨1, 2, 3⟩ rfl rfl
  exact ⟨h.1, h.2.1, h.2.2.1 ⟨true, true⟩ rfl, h'.2.2.2.1 ⟨true, true⟩ rfl,
    h.2.2.2.2.1 ⟨true, true⟩,
    h.2.2.2.2.2 ⟨true, true⟩ rfl rfl (Or.inl rfl)⟩

/-! ### Steering math: signed turn angle

`AIController.angleTo` (src/src/AIController.js lines 98-107, identical in
src/unnamed/part_011 lines 180-189) projects the forward vector and the
offset to the target onto the XZ plane, normalizes both, and returns
`atan2(cross, dot)` with `cross = f.x*t.z - f.z*t.x`. -/

/-- The normalized XZ-plane direction from `myPos` to `targetPos`
(`this._toTarget.subVectors(targetPos, myPos).setY(0).normalize()`). -/
def toTargetDir (myPos targetPos : Vec3) : Vec3 :=
  normalize3 (setY0 ⟨targetPos.x - myPos.x, targetPos.y - myPos.y, targetPos.z - myPos.z⟩)

/-- The vehicle forward vector projected to the XZ plane and normalized
(`this._forward.setY(0).normalize()`). -/
def forwardDirXZ (forward : Vec3) : Vec3 :=
  normalize3 (setY0 forward)

/-- The cross-product Y-term `a.x * b.z - a.z * b.x` from `angleTo`. -/
def crossY (a b : Vec3) : ℝ :=
  a.x * b.z - a.z * b.x

/-- Modelling `THREE.Vector3.dot`. -/
def dot3 (a b : Vec3) : ℝ :=
  a.x * b.x + a.y * b.y + a.z * b.z

/-- Model of `AIController.angleTo(myPos, targetPos)` with the vehicle forward vector
made explicit (src/src/AIController.js:98-107, src/unnamed/part_011:180-189). -/
def angleTo (forward myPos targetPos : Vec3) : ℝ :=
  atan2 (crossY (forwardDirXZ forward) (toTargetDir myPos targetPos))
        (dot3 (forwardDirXZ forward) (toTargetDir myPos targetPos))

/-- Helper: evaluate `norm3` at inputs whose squared length is a known square. -/
theorem norm3_eval (x y z r : ℝ) (hr : 0 ≤ r) (h : x ^ 2 + y ^ 2 + z ^ 2 = r ^ 2) :
    norm3 ⟨x, y, z⟩ = r := by
  simp only [norm3]
  rw [h]
  exact Real.sqrt_sq hr

/-- Helper: evaluate `dist3` at inputs whose squared distance is a known square. -/
theorem dist3_eval (a b : Vec3) (r : ℝ) (hr : 0 ≤ r)
    (h : (b.x - a.x) ^ 2 + (b.y - a.y) ^ 2 + (b.z - a.z) ^ 2 = r ^ 2) :
    dist3 a b = r := by
  simp only [dist3]
  rw [h]
  exact Real.sqrt_sq hr

/-- Helper: distance from a point to itself is zero. -/
theorem dist3_self (a : Vec3) : dist3 a a = 0 := by
  have := dist3_eval a a 0 le_rfl (by ring)
  exact this

/-- Helper: `normalize3` at a vector of known nonzero length. -/
theorem normalize3_eval (v : Vec3) (l : ℝ) (hl : norm3 v = l) (h0 : l ≠ 0) :
    normalize3 v = ⟨v.x / l, v.y / l, v.z / l⟩ := by
  simp only [normalize3, hl]
  rw [if_neg h0]

/-- Helper: the concrete end-to-end angle case. With forward `+Z` and the
target offset purely in `+X`, `angleTo` evaluates to `-(π/2)`. -/
theorem angleTo_plusZ_plusX :
    angleTo ⟨0, 0, 1⟩ ⟨0, 0, 0⟩ ⟨10, 0, 0⟩ = -(Real.pi / 2) := by
  have hf : forwardDirXZ ⟨0, 0, 1⟩ = ⟨0, 0, 1⟩ := by
    simp only [forwardDirXZ, setY0]
    rw [normalize3_eval _ 1 (norm3_eval 0 0 1 1 (by norm_num) (by norm_num)) (by norm_num)]
    norm_num
  have ht : toTargetDir ⟨0, 0, 0⟩ ⟨10, 0, 0⟩ = ⟨1, 0, 0⟩ := by
    simp only [toTargetDir, setY0]
    norm_num
    rw [normalize3_eval _ 10 (norm3_eval 10 0 0 10 (by norm_num) (by norm_num)) (by norm_num)]
    norm_num
  simp only [angleTo, hf, ht, crossY, dot3, atan2]
  norm_num
  have hI : ((⟨0, -1⟩ : ℂ)) = -Complex.I := by
    apply Complex.ext <;> simp
  rw [hI, Complex.arg_neg_I]

/-- C2: counterexample. The claim's concrete case says that with forward
`+Z` and the target offset purely in `+X` the signed angle is `≈ +π/2`
(positive, target "to the right"); `angleTo` actually returns `-(π/2)`,
which is negative and differs from `π/2`. -/
theorem angleTo_plusZ_plusX_negative :
    angleTo ⟨0, 0, 1⟩ ⟨0, 0, 0⟩ ⟨10, 0, 0⟩ < 0 ∧
    angleTo ⟨0, 0, 1⟩ ⟨0, 0, 0⟩ ⟨10, 0, 0⟩ ≠ Real.pi / 2 := by
  have h := angleTo_plusZ_plusX
  constructor
  · rw [h]
    have := Real.pi_pos
    linarith
  · rw [h]
    have := Real.pi_pos
    intro hc
    linarith

/-- C2 (amended): `angleTo` always lies in `(-π, π]`; it is negative exactly
when the cross term `f.x*t.z - f.z*t.x` is negative — so for a `+Z`-facing
agent a target offset in `+X` (which is the agent's left in this
right-handed, Y-up frame) yields a negative angle, and the concrete case
forward = `+Z`, offset `+X` evaluates to `-(π/2)`, not `+π/2`. -/
theorem angleTo_range_and_sign :
    (∀ f p t : Vec3, angleTo f p t ∈ Set.Ioc (-Real.pi) Real.pi) ∧
    (∀ f p t : Vec3,
      (angleTo f p t < 0 ↔ crossY (forwardDirXZ f) (toTargetDir p t) < 0)) ∧
    angleTo ⟨0, 0, 1⟩ ⟨0, 0, 0⟩ ⟨10, 0, 0⟩ = -(Real.pi / 2) := by
  refine ⟨?_, ?_, angleTo_plusZ_plusX⟩
  · intro f p t
    exact Complex.arg_mem_Ioc _
  · intro f p t
    simp only [angleTo, atan2]
    exact Complex.arg_neg_iff

/-! ### Steering policies (throttle as a function of angle error)

Three controllers contain a steer-toward routine: `AIController.steerToward`
(src/unnamed/part_011:195-217), `MOBAHeroAI.steerToward`
(src/src/MOBAHeroAI.js:322-344) and `MOBAControls.driveToward`
(src/src/MOBAControls.js:572-602). -/

/-- Model of `this._turnInPlaceThreshold` of the rewritten solo vehicle controller
(src/unnamed/part_011:69). -/
def AIController.turnInPlaceThreshold : ℝ := 0.5

/-- Throttle part of `AIController.steerToward` (src/unnamed/part_011:201-214). -/
def AIController.steerMoveY (angle : ℝ) (wantForward : Bool) : ℝ :=
  if wantForward = false then 0
  else if |angle| < AIController.turnInPlaceThreshold then 1
  else if |angle| < AIController.turnInPlaceThreshold * 2 then 0.3
  else 0

/-- Return value `{ moveX, moveY, angle }` of `AIController.steerToward`. -/
structure SteerResult where
  moveX : ℝ
  moveY : ℝ
  angle : ℝ

/-- Model of `AIController.steerToward(targetPos, myPos, wantForward)`
(src/unnamed/part_011:195-217), with the vehicle forward vector explicit. -/
def AIController.steerToward (forward myPos targetPos : Vec3)
    (wantForward : Bool) : SteerResult :=
  let angle := angleTo forward myPos targetPos
  ⟨clamp11 (angle * 2.5), AIController.steerMoveY angle wantForward, angle⟩

/-- The `while` loops normalizing an angle difference into `[-π, π]`
(src/src/MOBAHeroAI.js:331-332, src/src/MOBAControls.js:585-586); a single
conditional step, which coincides with the loops on the interval
`(-3π, 3π)` that contains every difference of two `atan2` values. -/
def wrapToPi (a : ℝ) : ℝ :=
  if Real.pi < a then a - 2 * Real.pi
  else if a < -Real.pi then a + 2 * Real.pi
  else a

/-- The signed angle difference `targetAngle - heroAngle` used by
`MOBAHeroAI.steerToward`/`aimAndFire` and `MOBAControls.driveToward`/
`aimAndFire`: `atan2(dx, dz) - atan2(forward.x, forward.z)`, wrapped. -/
def MOBAHeroAI.angleDiff (forward myPos targetPos : Vec3) : ℝ :=
  wrapToPi (atan2 (targetPos.x - myPos.x) (targetPos.z - myPos.z) -
            atan2 forward.x forward.z)

/-- Throttle part of `MOBAHeroAI.steerToward` (src/src/MOBAHeroAI.js:336-341). -/
def MOBAHeroAI.steerMoveY (angleDiff : ℝ) (moveForward : Bool) : ℝ :=
  if moveForward = false then 0
  else if |angleDiff| < 0.5 then 1
  else if |angleDiff| < 1.2 then 0.5
  else 0.1

/-- The `(steerX, moveY)` pair `MOBAHeroAI.steerToward` feeds into
`setMoveInput` (src/src/MOBAHeroAI.js:322-344). -/
def MOBAHeroAI.steerInput (forward myPos targetPos : Vec3)
    (moveForward : Bool) : ℝ × ℝ :=
  let d := MOBAHeroAI.angleDiff forward myPos targetPos
  (clamp11 (d * 2.5), MOBAHeroAI.steerMoveY d moveForward)

/-- Throttle part of `MOBAControls.driveToward`
(src/src/MOBAControls.js:592-599); it has no `wantForward` flag and always
keeps a 0.1 creep at large angles. -/
def MOBAControls.driveMoveY (angleDiff : ℝ) : ℝ :=
  if |angleDiff| < 0.5 then 1
  else if |angleDiff| < 1.2 then 0.5
  else 0.1

/-- The `(steerX, moveY)` pair `MOBAControls.driveToward` feeds into
`setMoveInput` (src/src/MOBAControls.js:572-602); same angle computation as
`MOBAHeroAI.steerToward` but with steering gain 2. -/
def MOBAControls.driveToward (forward heroPos targetPos : Vec3) : ℝ × ℝ :=
  let d := MOBAHeroAI.angleDiff forward heroPos targetPos
  (clamp11 (d * 2), MOBAControls.driveMoveY d)

/-- C3: counterexample. The claim says every controller's steer routine
gives exactly zero throttle when `|angle| ≥ 2 × threshold` and `wantForward`
is true; `MOBAHeroAI.steerToward` at angle error 2 rad gives throttle 0.1. -/
theorem heroSteer_large_angle_nonzero_throttle :
    MOBAHeroAI.steerMoveY 2 true = 0.1 ∧ MOBAHeroAI.steerMoveY 2 true ≠ 0 := by
  have h : MOBAHeroAI.steerMoveY 2 true = 0.1 := by
    simp only [MOBAHeroAI.steerMoveY]
    rw [if_neg (by simp), if_neg (by rw [abs_two]; norm_num),
        if_neg (by rw [abs_two]; norm_num)]
  exact ⟨h, by rw [h]; norm_num⟩

/-- C3 (amended): with `wantForward` false every steer routine that has the
flag gives throttle 0. With it true, `AIController.steerToward` follows the
claimed policy exactly (1 below the 0.5 rad threshold, 0.3 below twice the
threshold, 0 beyond). `MOBAHeroAI.steerToward` and `MOBAControls.driveToward`
instead use bands 0.5/1.2 with throttles 1/0.5 and keep a 0.1 creep beyond
1.2 rad (never exactly zero); `driveToward` has no `wantForward` flag. -/
theorem steer_throttle_policies :
    (∀ a : ℝ, AIController.steerMoveY a false = 0 ∧
              MOBAHeroAI.steerMoveY a false = 0) ∧
    (∀ a : ℝ, |a| < 0.5 → AIController.steerMoveY a true = 1 ∧
              MOBAHeroAI.steerMoveY a true = 1 ∧ MOBAControls.driveMoveY a = 1) ∧
    (∀ a : ℝ, 0.5 ≤ |a| → |a| < 1 → AIController.steerMoveY a true = 0.3) ∧
    (∀ a : ℝ, 1 ≤ |a| → AIController.steerMoveY a true = 0) ∧
    (∀ a : ℝ, 0.5 ≤ |a| → |a| < 1.2 → MOBAHeroAI.steerMoveY a true = 0.5 ∧
              MOBAControls.driveMoveY a = 0.5) ∧
    (∀ a : ℝ, 1.2 ≤ |a| → MOBAHeroAI.steerMoveY a true = 0.1 ∧
              MOBAControls.driveMoveY a = 0.1) := by
  refine ⟨fun a => ⟨?_, ?_⟩, fun a h => ⟨?_, ?_, ?_⟩, fun a h1 h2 => ?_,
          fun a h1 => ?_, fun a h1 h2 => ⟨?_, ?_⟩, fun a h1 => ⟨?_, ?_⟩⟩
  · simp [AIController.steerMoveY]
  · simp [MOBAHeroAI.steerMoveY]
  · simp only [AIController.steerMoveY, AIController.turnInPlaceThreshold]
    rw [if_neg (by simp), if_pos h]
  · simp only [MOBAHeroAI.steerMoveY]
    rw [if_neg (by simp), if_pos h]
  · simp only [MOBAControls.driveMoveY]
    rw [if_pos h]
  · simp only [AIController.steerMoveY, AIController.turnInPlaceThreshold]
    rw [if_neg (by simp), if_neg (not_lt.mpr h1), if_pos (by linarith)]
  · simp only [AIController.steerMoveY, AIController.turnInPlaceThreshold]
    rw [if_neg (by simp), if_neg (by linarith), if_neg (by linarith)]
  · simp only [MOBAHeroAI.steerMoveY]
    rw [if_neg (by simp), if_neg (not_lt.mpr h1), if_pos h2]
  · simp only [MOBAControls.driveMoveY]
    rw [if_neg (not_lt.mpr h1), if_pos h2]
  · simp only [MOBAHeroAI.steerMoveY]
    rw [if_neg (by simp), if_neg (by linarith), if_neg (not_lt.mpr h1)]
  · simp only [MOBAControls.driveMoveY]
    rw [if_neg (by linarith), if_neg (not_lt.mpr h1)]

/-- C3 witness: the amended policy table at concrete angle errors. -/
theorem steer_throttle_policies_witness :
    AIController.steerMoveY 2 false = 0 ∧
    AIController.steerMoveY 0 true = 1 ∧
    AIController.steerMoveY 0.7 true = 0.3 ∧
    AIController.steerMoveY 2 true = 0 ∧
    MOBAHeroAI.steerMoveY 0.7 true = 0.5 ∧
    MOBAControls.driveMoveY 2 = 0.1 := by
  refine ⟨(steer_throttle_policies.1 2).1,
    (steer_throttle_policies.2.1 0 (by rw [abs_zero]; norm_num)).1,
    steer_throttle_policies.2.2.1 0.7 ?_ ?_,
    steer_throttle_policies.2.2.2.1 2 (by rw [abs_two]; norm_num),
    (steer_throttle_policies.2.2.2.2.1 0.7 ?_ ?_).1,
    (steer_throttle_policies.2.2.2.2.2 2 (by rw [abs_two]; norm_num)).2⟩ <;>
    rw [abs_of_pos (by norm_num : (0:ℝ) < 0.7)] <;> norm_num

/-! ### Solo vehicle state machine (patrol / chase / attack)

Two variants exist: the rewritten controller (src/unnamed/part_011:91-118,
ranges 60/35, exit factors 1.2 and 1.4) and the original
(src/src/AIController.js:55-77, ranges 60/40, exit factors 1.2 and 1.3). -/

/-- The three solo vehicle controller states. -/
inductive VehState
  | patrol
  | chase
  | attack
deriving DecidableEq

/-- Model of `this.detectRange` (src/unnamed/part_011:34). -/
def AIController.detectRange : ℝ := 60

/-- Model of `this.attackRange` (src/unnamed/part_011:35). -/
def AIController.attackRange : ℝ := 35

/-- The state-transition switch of `AIController.update`
(src/unnamed/part_011:91-118), as a function of the pre-tick state and
`distToPlayer`. -/
def AIController.transition (s : VehState) (distToPlayer : ℝ) : VehState :=
  match s with
  | .patrol =>
      if distToPlayer < AIController.detectRange then .chase else .patrol
  | .chase =>
      if AIController.detectRange * 1.2 < distToPlayer then .patrol
      else if distToPlayer < AIController.attackRange then .attack
      else .chase
  | .attack =>
      if AIController.attackRange * 1.4 < distToPlayer then .chase else .attack

/-- Model of `this.detectRange` of the original controller (src/src/AIController.js:23). -/
def AIControllerLegacy.detectRange : ℝ := 60

/-- Model of `this.attackRange` of the original controller (src/src/AIController.js:24). -/
def AIControllerLegacy.attackRange : ℝ := 40

/-- The state-transition switch of the original `AIController.update`
(src/src/AIController.js:55-77). -/
def AIControllerLegacy.transition (s : VehState) (distToPlayer : ℝ) : VehState :=
  match s with
  | .patrol =>
      if distToPlayer < AIControllerLegacy.detectRange then .chase else .patrol
  | .chase =>
      if AIControllerLegacy.detectRange * 1.2 < distToPlayer then .patrol
      else if distToPlayer < AIControllerLegacy.attackRange then .attack
      else .chase
  | .attack =>
      if AIControllerLegacy.attackRange * 1.3 < distToPlayer then .chase else .attack

/-- Helper: the chase-to-patrol exit of the rewritten controller fires
exactly beyond `detectRange * 1.2`. -/
theorem AIController.transition_chase_patrol (d : ℝ) :
    AIController.transition .chase d = .patrol ↔ AIController.detectRange * 1.2 < d := by
  simp only [AIController.transition]
  constructor
  · intro h
    by_cases hd : AIController.detectRange * 1.2 < d
    · exact hd
    · rw [if_neg hd] at h
      split at h <;> exact absurd h (by decide)
  · intro hd
    rw [if_pos hd]

/-- Helper: the patrol-to-chase entry of the rewritten controller fires
exactly below `detectRange`. -/
theorem AIController.transition_patrol_chase (d : ℝ) :
    AIController.transition .patrol d = .chase ↔ d < AIController.detectRange := by
  simp only [AIController.transition]
  split
  next h => simp [h]
  next h => simp [h]

/-- Helper: the attack-to-chase exit of the rewritten controller fires
exactly beyond `attackRange * 1.4`. -/
theorem AIController.transition_attack_chase (d : ℝ) :
    AIController.transition .attack d = .chase ↔ AIController.attackRange * 1.4 < d := by
  simp only [AIController.transition]
  split
  next h => simp [h]
  next h => simp [h]

/-- Helper: the chase-to-patrol exit of the original controller. -/
theorem AIControllerLegacy.legacy_chase_patrol_exit (d : ℝ) :
    AIControllerLegacy.transition .chase d = .patrol ↔
      AIControllerLegacy.detectRange * 1.2 < d := by
  simp only [AIControllerLegacy.transition]
  constructor
  · intro h
    by_cases hd : AIControllerLegacy.detectRange * 1.2 < d
    · exact hd
    · rw [if_neg hd] at h
      split at h <;> exact absurd h (by decide)
  · intro hd
    rw [if_pos hd]

/-- Helper: the patrol-to-chase entry of the original controller. -/
theorem AIControllerLegacy.legacy_patrol_chase_entry (d : ℝ) :
    AIControllerLegacy.transition .patrol d = .chase ↔
      d < AIControllerLegacy.detectRange := by
  simp only [AIControllerLegacy.transition]
  split
  next h => simp [h]
  next h => simp [h]

/-- Helper: the attack-to-chase exit of the original controller. -/
theorem AIControllerLegacy.legacy_attack_chase_exit (d : ℝ) :
    AIControllerLegacy.transition .attack d = .chase ↔
      AIControllerLegacy.attackRange * 1.3 < d := by
  simp only [AIControllerLegacy.transition]
  split
  next h => simp [h]
  next h => simp [h]

/-- C7: in both solo vehicle controller variants every exit threshold is
strictly wider than the matching entry threshold (chase exits to patrol only
beyond `detectRange * 1.2 > detectRange`, attack exits to chase only beyond
`attackRange * 1.4` resp. `* 1.3`), and at no distance — in particular not
at the chase entry boundary `d = detectRange` — can both `chase → patrol`
and `patrol → chase` fire in the same tick window. -/
theorem solo_vehicle_hysteresis :
    AIController.detectRange < AIController.detectRange * 1.2 ∧
    AIController.attackRange < AIController.attackRange * 1.4 ∧
    AIControllerLegacy.detectRange < AIControllerLegacy.detectRange * 1.2 ∧
    AIControllerLegacy.attackRange < AIControllerLegacy.attackRange * 1.3 ∧
    (∀ d : ℝ, AIController.transition .chase d = .patrol →
      AIController.detectRange < d) ∧
    (∀ d : ℝ, AIController.transition .attack d = .chase →
      AIController.attackRange < d) ∧
    (∀ d : ℝ, ¬(AIController.transition .chase d = .patrol ∧
                AIController.transition .patrol d = .chase)) ∧
    AIController.transition .patrol AIController.detectRange = .patrol ∧
    AIController.transition .chase AIController.detectRange = .chase ∧
    (∀ d : ℝ, AIControllerLegacy.transition .chase d = .patrol →
      AIControllerLegacy.detectRange < d) ∧
    (∀ d : ℝ, AIControllerLegacy.transition .attack d = .chase →
      AIControllerLegacy.attackRange < d) ∧
    (∀ d : ℝ, ¬(AIControllerLegacy.transition .chase d = .patrol ∧
                AIControllerLegacy.transition .patrol d = .chase)) := by
  have hdr : AIController.detectRange = 60 := rfl
  have har : AIController.attackRange = 35 := rfl
  have hdrL : AIControllerLegacy.detectRange = 60 := rfl
  have harL : AIControllerLegacy.attackRange = 40 := rfl
  refine ⟨by rw [hdr]; norm_num, by rw [har]; norm_num,
          by rw [hdrL]; norm_num, by rw [harL]; norm_num,
          ?_, ?_, ?_, ?_, ?_, ?_, ?_, ?_⟩
  · intro d h
    rw [AIController.transition_chase_patrol, hdr] at h
    rw [hdr]
    linarith
  · intro d h
    rw [AIController.transition_attack_chase, har] at h
    rw [har]
    linarith
  · intro d h
    obtain ⟨h1, h2⟩ := h
    rw [AIController.transition_chase_patrol, hdr] at h1
    rw [AIController.transition_patrol_chase, hdr] at h2
    linarith
  · simp only [AIController.transition]
    rw [if_neg (lt_irrefl _)]
  · simp only [AIController.transition, hdr, har]
    rw [if_neg (by norm_num), if_neg (by norm_num)]
  · intro d h
    rw [AIControllerLegacy.legacy_chase_patrol_exit, hdrL] at h
    rw [hdrL]
    linarith
  · intro d h
    rw [AIControllerLegacy.legacy_attack_chase_exit, harL] at h
    rw [harL]
    linarith
  · intro d h
    obtain ⟨h1, h2⟩ := h
    rw [AIControllerLegacy.legacy_chase_patrol_exit, hdrL] at h1
    rw [AIControllerLegacy.legacy_patrol_chase_entry, hdrL] at h2
    linarith

/-- C7 witness: the hysteresis bounds applied at concrete distances that do
exit chase resp. attack, plus the boundary no-flap facts. -/
theorem solo_vehicle_hysteresis_witness :
    AIController.detectRange < 73 ∧ AIController.attackRange < 50 ∧
    AIControllerLegacy.detectRange < 73 ∧ AIControllerLegacy.attackRange < 53 ∧
    ¬(AIController.transition .chase 60 = .patrol ∧
      AIController.transition .patrol 60 = .chase) := by
  refine ⟨solo_vehicle_hysteresis.2.2.2.2.1 73 ?_,
          solo_vehicle_hysteresis.2.2.2.2.2.1 50 ?_,
          solo_vehicle_hysteresis.2.2.2.2.2.2.2.2.2.1 73 ?_,
          solo_vehicle_hysteresis.2.2.2.2.2.2.2.2.2.2.1 53 ?_,
          solo_vehicle_hysteresis.2.2.2.2.2.2.1 60⟩
  · show AIController.transition .chase 73 = .patrol
    simp only [AIController.transition, AIController.detectRange]
    rw [if_pos (by norm_num)]
  · show AIController.transition .attack 50 = .chase
    simp only [AIController.transition, AIController.attackRange]
    rw [if_pos (by norm_num)]
  · show AIControllerLegacy.transition .chase 73 = .patrol
    simp only [AIControllerLegacy.transition, AIControllerLegacy.detectRange]
    rw [if_pos (by norm_num)]
  · show AIControllerLegacy.transition .attack 53 = .chase
    simp only [AIControllerLegacy.transition, AIControllerLegacy.attackRange]
    rw [if_pos (by norm_num)]

/-! ### Agent state and the MOBA hero controller

`HeroUnit` is the agent capability interface the controllers drive:
position, forward vector, health, and the movement/aim/fire intents written
through `setMoveInput` / `setTurretInput` / `fire`. `HeroAIState` is the
controller-internal state of `MOBAHeroAI` (src/src/MOBAHeroAI.js). The
navigation system is passed as the pair `ready` / `findPath` (the oracle
for `MOBANavSystem.findPath`, which always yields a waypoint list). -/

/-- The agent fields read and written by the controllers. -/
structure HeroUnit where
  pos : Vec3
  forward : Vec3
  health : ℝ
  maxHealth : ℝ
  attackRange : Option ℝ
  moveInput : ℝ × ℝ
  turretInput : ℝ × ℝ
  firedCount : ℕ

/-- Model of `vehicle.setMoveInput(x, y)`. -/
def setMoveInput (v : HeroUnit) (x y : ℝ) : HeroUnit :=
  { v with moveInput := (x, y) }

/-- Model of `vehicle.setTurretInput(x, y)`. -/
def setTurretInput (v : HeroUnit) (x y : ℝ) : HeroUnit :=
  { v with turretInput := (x, y) }

/-- Model of `vehicle.fire()`, counted so that intent writes stay distinguishable. -/
def fireHero (v : HeroUnit) : HeroUnit :=
  { v with firedCount := v.firedCount + 1 }

/-- The five states of `MOBAHeroAI` (src/src/MOBAHeroAI.js:13). -/
inductive HeroState
  | idle
  | lane
  | contest
  | fight
  | retreat
deriving DecidableEq

/-- Controller-internal state of `MOBAHeroAI`. -/
structure HeroAIState where
  state : HeroState
  lanePath : List Vec3
  waypointIndex : ℕ
  navPath : List Vec3
  navPathIndex : ℕ
  navPathTimer : ℝ

/-- Model of `MOBAHeroAI.setLane` (src/src/MOBAHeroAI.js:65-72): reversed lane
waypoints, waypoint index reset, state set to lane. -/
def MOBAHeroAI.setLane (laneWaypoints : List Vec3) (ai : HeroAIState) : HeroAIState :=
  { ai with lanePath := laneWaypoints.reverse, waypointIndex := 0, state := .lane }

/-- Model of `MOBAHeroAI.navigateTo` (src/src/MOBAHeroAI.js:160-173): computes a nav
path and skips the first waypoint when it is within 5 units of the current
position; without a ready nav system it stores the one-point direct path. -/
def MOBAHeroAI.navigateTo (ready : Bool) (findPath : Vec3 → Vec3 → List Vec3)
    (myPos targetPos : Vec3) (ai : HeroAIState) : HeroAIState :=
  if ready = true then
    let path := findPath myPos targetPos
    let idx :=
      if 1 < path.length ∧ dist3 myPos (path.getD 0 ⟨0, 0, 0⟩) < 5 then 1 else 0
    { ai with navPath := path, navPathIndex := idx }
  else
    { ai with navPath := [⟨targetPos.x, targetPos.y, targetPos.z⟩], navPathIndex := 0 }

/-- Model of `MOBAHeroAI.followNavPath` (src/src/MOBAHeroAI.js:178-193): past the end
of the path the movement intent is zeroed; otherwise the index advances when
the current waypoint is within 5 units and is not the last, and the hero
steers toward the (possibly advanced) current waypoint. -/
def MOBAHeroAI.followNavPath (myPos : Vec3) (moveForward : Bool)
    (ai : HeroAIState) (v : HeroUnit) : HeroAIState × HeroUnit :=
  if ai.navPath.length ≤ ai.navPathIndex then
    (ai, setMoveInput v 0 0)
  else
    let wp := ai.navPath.getD ai.navPathIndex ⟨0, 0, 0⟩
    let idx :=
      if dist3 myPos wp < 5 ∧ ai.navPathIndex < ai.navPath.length - 1
      then ai.navPathIndex + 1 else ai.navPathIndex
    let inp := MOBAHeroAI.steerInput v.forward myPos
      (ai.navPath.getD idx ⟨0, 0, 0⟩) moveForward
    ({ ai with navPathIndex := idx }, setMoveInput v inp.1 inp.2)

/-- Model of `MOBAHeroAI.doRetreat` (src/src/MOBAHeroAI.js:270-299): within 20 units
of the base the hero stops, clears its nav path, passively heals by
`5 * delta` up to `maxHealth`, and returns to lane marching above 70%
health; otherwise it re-paths to the base on the 2-second timer and follows
the path. -/
def MOBAHeroAI.doRetreat (redBasePos : Vec3) (laneWaypoints : List Vec3)
    (ready : Bool) (findPath : Vec3 → Vec3 → List Vec3) (delta : ℝ)
    (ai : HeroAIState) (v : HeroUnit) : HeroAIState × HeroUnit :=
  let myPos := v.pos
  if dist3 myPos redBasePos < 20 then
    let v1 := setMoveInput v 0 0
    let ai1 := { ai with navPath := [] }
    let v2 :=
      if v1.health < v1.maxHealth
      then { v1 with health := min v1.maxHealth (v1.health + 5 * delta) }
      else v1
    let ai2 :=
      if v2.maxHealth * 0.7 < v2.health
      then MOBAHeroAI.setLane laneWaypoints ai1 else ai1
    (ai2, v2)
  else
    let t := ai.navPathTimer - delta
    let ai1 :=
      if t ≤ 0 ∨ ai.navPath.length = 0
      then { MOBAHeroAI.navigateTo ready findPath myPos redBasePos ai with
               navPathTimer := 2.0 }
      else { ai with navPathTimer := t }
    MOBAHeroAI.followNavPath myPos true ai1 v

/-- C4: counterexample. The claim says a controller tick writes only the
movement/aim/fire intents and leaves health unchanged; `MOBAHeroAI.doRetreat`
at the base with a damaged vehicle writes `vehicle.health` directly
(passive regeneration): health 50 becomes 50.5 after a 0.1 s tick. -/
theorem doRetreat_writes_health :
    ((MOBAHeroAI.doRetreat ⟨0, 0, 0⟩ [] false (fun _ _ => []) 0.1
        ⟨.retreat, [], 0, [], 0, 0⟩
        ⟨⟨0, 0, 0⟩, ⟨0, 0, 1⟩, 50, 100, none, (0.5, 0.5), (0, 0), 0⟩).2).health
      = 50.5 ∧ (50.5 : ℝ) ≠ 50 := by
  constructor
  · norm_num [MOBAHeroAI.doRetreat, setMoveInput, MOBAHeroAI.setLane,
      dist3_self, min_def]
  · norm_num

/-- C4 (amended): each `doRetreat` tick leaves the agent's position, forward
vector, maximum health, attack range and fire count unchanged and writes
only the movement intent — except that when the hero is within 20 units of
the base and below full health, the controller additionally writes the
agent's health (passive base regeneration). -/
theorem doRetreat_agent_effects (base : Vec3) (lw : List Vec3) (ready : Bool)
    (q : Vec3 → Vec3 → List Vec3) (delta : ℝ) (ai : HeroAIState) (v : HeroUnit) :
    ((MOBAHeroAI.doRetreat base lw ready q delta ai v).2.pos = v.pos) ∧
    ((MOBAHeroAI.doRetreat base lw ready q delta ai v).2.forward = v.forward) ∧
    ((MOBAHeroAI.doRetreat base lw ready q delta ai v).2.maxHealth = v.maxHealth) ∧
    ((MOBAHeroAI.doRetreat base lw ready q delta ai v).2.attackRange = v.attackRange) ∧
    ((MOBAHeroAI.doRetreat base lw ready q delta ai v).2.firedCount = v.firedCount) ∧
    ((MOBAHeroAI.doRetreat base lw ready q delta ai v).2.health = v.health ∨
      (dist3 v.pos base < 20 ∧ v.health < v.maxHealth)) := by
  simp only [MOBAHeroAI.doRetreat, MOBAHeroAI.followNavPath, setMoveInput,
    MOBAHeroAI.setLane]
  split_ifs with hd hh <;>
    first
      | exact ⟨rfl, rfl, rfl, rfl, rfl, Or.inr ⟨hd, hh⟩⟩
      | exact ⟨rfl, rfl, rfl, rfl, rfl, Or.inl rfl⟩

/-! ### MOBAControls: click-to-move path following (src/src/MOBAControls.js) -/

/-- A clickable/attackable target: alive predicate plus position. -/
structure TargetUnit where
  alive : Bool
  pos : Vec3

/-- Controller-internal state of `MOBAControls` (src/src/MOBAControls.js:29-43). -/
structure MOBAControlsState where
  moveTarget : Option Vec3
  attackTarget : Option TargetUnit
  currentPath : List Vec3
  currentWaypointIndex : ℕ
  stuckTimer : ℝ
  lastStuckPos : Vec3
  attackPathTimer : ℝ

/-- Model of `this.waypointArrivalDist` (src/src/MOBAControls.js:36). -/
def MOBAControls.waypointArrivalDist : ℝ := 5

/-- Model of `this._stuckThreshold` in seconds (src/src/MOBAControls.js:41). -/
def MOBAControls.stuckThreshold : ℝ := 2.0

/-- Model of `this._stuckMinDist` in meters (src/src/MOBAControls.js:42). -/
def MOBAControls.stuckMinDist : ℝ := 1.0

/-- Model of `MOBAControls.computePath` (src/src/MOBAControls.js:369-388): stores the
nav path, skipping the first waypoint when it is within arrival distance of
the hero; without a ready nav system it stores the one-point direct path. -/
def MOBAControls.computePath (ready : Bool) (findPath : Vec3 → Vec3 → List Vec3)
    (heroPos targetPos : Vec3) (s : MOBAControlsState) : MOBAControlsState :=
  if ready = true then
    let path := findPath heroPos targetPos
    let idx :=
      if 1 < path.length ∧
          dist3 heroPos (path.getD 0 ⟨0, 0, 0⟩) < MOBAControls.waypointArrivalDist
      then 1 else 0
    { s with currentPath := path, currentWaypointIndex := idx }
  else
    { s with currentPath := [targetPos], currentWaypointIndex := 0 }

/-- Model of `MOBAControls.followPath` (src/src/MOBAControls.js:540-566): past the
end of the path everything is cleared; on arrival at the current waypoint
the index advances (and, past the last waypoint, the path is cleared while
the advanced index stays); otherwise the hero is driven at the waypoint. -/
def MOBAControls.followPath (heroPos : Vec3) (s : MOBAControlsState)
    (hero : HeroUnit) : MOBAControlsState × HeroUnit :=
  if s.currentPath.length ≤ s.currentWaypointIndex then
    ({ s with currentPath := [], moveTarget := none }, setMoveInput hero 0 0)
  else
    let wp := s.currentPath.getD s.currentWaypointIndex ⟨0, 0, 0⟩
    if dist3 heroPos wp < MOBAControls.waypointArrivalDist then
      let idx := s.currentWaypointIndex + 1
      if s.currentPath.length ≤ idx then
        ({ s with currentWaypointIndex := idx, currentPath := [], moveTarget := none },
         setMoveInput hero 0 0)
      else
        let inp := MOBAControls.driveToward hero.forward heroPos
          (s.currentPath.getD idx ⟨0, 0, 0⟩)
        ({ s with currentWaypointIndex := idx }, setMoveInput hero inp.1 inp.2)
    else
      let inp := MOBAControls.driveToward hero.forward heroPos wp
      (s, setMoveInput hero inp.1 inp.2)

/-- C8: counterexample. The claim says a fresh path's index is advanced past
every waypoint within arrival distance, so the first steered waypoint is
beyond arrival distance unless final. With a path whose first two waypoints
are both within 5 units of the hero, `navigateTo` advances the index only
to 1, and the waypoint then steered toward is 1 unit away and not final. -/
theorem navigateTo_skips_only_first_waypoint :
    ((MOBAHeroAI.navigateTo true
        (fun _ _ => [⟨0, 0, 0⟩, ⟨1, 0, 0⟩, ⟨10, 0, 10⟩]) ⟨0, 0, 0⟩ ⟨10, 0, 10⟩
        ⟨.lane, [], 0, [], 0, 0⟩).navPathIndex = 1) ∧
    dist3 ⟨0, 0, 0⟩
      ((MOBAHeroAI.navigateTo true
          (fun _ _ => [⟨0, 0, 0⟩, ⟨1, 0, 0⟩, ⟨10, 0, 10⟩]) ⟨0, 0, 0⟩ ⟨10, 0, 10⟩
          ⟨.lane, [], 0, [], 0, 0⟩).navPath.getD 1 ⟨0, 0, 0⟩) < 5 ∧
    ((MOBAHeroAI.navigateTo true
        (fun _ _ => [⟨0, 0, 0⟩, ⟨1, 0, 0⟩, ⟨10, 0, 10⟩]) ⟨0, 0, 0⟩ ⟨10, 0, 10⟩
        ⟨.lane, [], 0, [], 0, 0⟩).navPathIndex ≠
      (MOBAHeroAI.navigateTo true
        (fun _ _ => [⟨0, 0, 0⟩, ⟨1, 0, 0⟩, ⟨10, 0, 10⟩]) ⟨0, 0, 0⟩ ⟨10, 0, 10⟩
        ⟨.lane, [], 0, [], 0, 0⟩).navPath.length - 1) := by
  have hd1 : dist3 ⟨0, 0, 0⟩ ⟨1, 0, 0⟩ = 1 :=
    dist3_eval _ _ 1 (by norm_num) (by norm_num)
  refine ⟨?_, ?_, ?_⟩ <;>
    norm_num [MOBAHeroAI.navigateTo, List.getD, dist3_self, hd1]

/-- C8 (amended): on a new path the waypoint index is advanced past at most
the first waypoint — it becomes 1 exactly when the path has more than one
waypoint and its first waypoint is within arrival distance of the agent,
and 0 otherwise; waypoints after the first are never skipped, so the first
steered waypoint can itself still be within arrival distance. Both
`MOBAHeroAI.navigateTo` and `MOBAControls.computePath` behave this way. -/
theorem new_path_skips_at_most_first_waypoint (q : Vec3 → Vec3 → List Vec3)
    (myPos target : Vec3) (ai : HeroAIState) (s : MOBAControlsState) :
    ((MOBAHeroAI.navigateTo true q myPos target ai).navPathIndex = 0 ∨
     (MOBAHeroAI.navigateTo true q myPos target ai).navPathIndex = 1) ∧
    ((MOBAHeroAI.navigateTo true q myPos target ai).navPathIndex = 1 ↔
      (1 < (q myPos target).length ∧
        dist3 myPos ((q myPos target).getD 0 ⟨0, 0, 0⟩) < 5)) ∧
    ((MOBAControls.computePath true q myPos target s).currentWaypointIndex = 0 ∨
     (MOBAControls.computePath true q myPos target s).currentWaypointIndex = 1) ∧
    ((MOBAControls.computePath true q myPos target s).currentWaypointIndex = 1 ↔
      (1 < (q myPos target).length ∧
        dist3 myPos ((q myPos target).getD 0 ⟨0, 0, 0⟩) <
          MOBAControls.waypointArrivalDist)) := by
  simp only [MOBAHeroAI.navigateTo, MOBAControls.computePath, if_true, List.getD,
    List.get?_eq_getElem?]
  refine ⟨?_, ?_, ?_, ?_⟩ <;> split_ifs with h <;> simp [h]

/-- C6: counterexample. The claim says `waypointIndex < max(1, length)`
holds after every operation; when `MOBAControls.followPath` arrives at the
final waypoint of a one-waypoint path it clears the path but leaves the
advanced index at 1, so the post-state violates the invariant. -/
theorem followPath_breaks_index_invariant :
    ¬((MOBAControls.followPath ⟨0, 0, 0⟩
        ⟨some ⟨0, 0, 0⟩, none, [⟨0, 0, 0⟩], 0, 0, ⟨0, 0, 0⟩, 0⟩
        ⟨⟨0, 0, 0⟩, ⟨0, 0, 1⟩, 100, 100, none, (0, 0), (0, 0), 0⟩).1.currentWaypointIndex <
      max 1 (MOBAControls.followPath ⟨0, 0, 0⟩
        ⟨some ⟨0, 0, 0⟩, none, [⟨0, 0, 0⟩], 0, 0, ⟨0, 0, 0⟩, 0⟩
        ⟨⟨0, 0, 0⟩, ⟨0, 0, 1⟩, 100, 100, none, (0, 0), (0, 0), 0⟩).1.currentPath.length) := by
  norm_num [MOBAControls.followPath, MOBAControls.waypointArrivalDist,
    List.getD, dist3_self]

/-- Helper: `navigateTo` establishes the waypoint-index invariant. -/
theorem navigateTo_invariant (ready : Bool) (q : Vec3 → Vec3 → List Vec3)
    (myPos target : Vec3) (ai : HeroAIState) :
    (MOBAHeroAI.navigateTo ready q myPos target ai).navPathIndex <
      max 1 (MOBAHeroAI.navigateTo ready q myPos target ai).navPath.length := by
  simp only [MOBAHeroAI.navigateTo]
  split_ifs with h1 h2
  · show 1 < max 1 (q myPos target).length
    omega
  · show 0 < max 1 (q myPos target).length
    omega
  · show 0 < max 1 [(⟨target.x, target.y, target.z⟩ : Vec3)].length
    omega

/-- Helper: `computePath` establishes the waypoint-index invariant. -/
theorem computePath_invariant (ready : Bool) (q : Vec3 → Vec3 → List Vec3)
    (heroPos target : Vec3) (s : MOBAControlsState) :
    (MOBAControls.computePath ready q heroPos target s).currentWaypointIndex <
      max 1 (MOBAControls.computePath ready q heroPos target s).currentPath.length := by
  simp only [MOBAControls.computePath]
  split_ifs with h1 h2
  · show 1 < max 1 (q heroPos target).length
    omega
  · show 0 < max 1 (q heroPos target).length
    omega
  · show 0 < max 1 [target].length
    omega

/-- Helper: `followNavPath` preserves the waypoint-index invariant. -/
theorem followNavPath_invariant (myPos : Vec3) (mf : Bool)
    (ai : HeroAIState) (v : HeroUnit)
    (h : ai.navPathIndex < max 1 ai.navPath.length) :
    (MOBAHeroAI.followNavPath myPos mf ai v).1.navPathIndex <
      max 1 (MOBAHeroAI.followNavPath myPos mf ai v).1.navPath.length := by
  simp only [MOBAHeroAI.followNavPath]
  split_ifs with h1 h2
  · exact h
  · show ai.navPathIndex + 1 < max 1 ai.navPath.length
    omega
  · exact h

/-- Helper: `followNavPath` never decreases the waypoint index. -/
theorem followNavPath_index_mono (myPos : Vec3) (mf : Bool)
    (ai : HeroAIState) (v : HeroUnit) :
    ai.navPathIndex ≤ (MOBAHeroAI.followNavPath myPos mf ai v).1.navPathIndex := by
  simp only [MOBAHeroAI.followNavPath]
  split_ifs with h1 h2
  · exact le_rfl
  · show ai.navPathIndex ≤ ai.navPathIndex + 1
    omega
  · exact le_rfl

/-- Helper: `followPath` never decreases the waypoint index. -/
theorem followPath_index_mono (heroPos : Vec3) (s : MOBAControlsState)
    (hero : HeroUnit) :
    s.currentWaypointIndex ≤
      (MOBAControls.followPath heroPos s hero).1.currentWaypointIndex := by
  simp only [MOBAControls.followPath]
  split_ifs with h1 h2 h3
  · exact le_rfl
  · show s.currentWaypointIndex ≤ s.currentWaypointIndex + 1
    omega
  · show s.currentWaypointIndex ≤ s.currentWaypointIndex + 1
    omega
  · exact le_rfl

/-- Helper: when `followPath` keeps a non-empty path, the index stays in
bounds. -/
theorem followPath_nonempty_invariant (heroPos : Vec3) (s : MOBAControlsState)
    (hero : HeroUnit) (h : s.currentWaypointIndex < s.currentPath.length) :
    (MOBAControls.followPath heroPos s hero).1.currentPath ≠ [] →
    (MOBAControls.followPath heroPos s hero).1.currentWaypointIndex <
      (MOBAControls.followPath heroPos s hero).1.currentPath.length := by
  simp only [MOBAControls.followPath]
  split_ifs with h1 h2 h3
  · omega
  · intro hne
    exact absurd rfl hne
  · intro _
    show s.currentWaypointIndex + 1 < s.currentPath.length
    omega
  · intro _
    exact h

/-- Helper: when `followPath` arrives at the final waypoint it enters the
terminal arrived state — the path is cleared and the move target dropped. -/
theorem followPath_final_arrival (heroPos : Vec3) (s : MOBAControlsState)
    (hero : HeroUnit) (hlen : s.currentWaypointIndex + 1 = s.currentPath.length)
    (hnear : dist3 heroPos
      (s.currentPath.getD s.currentWaypointIndex ⟨0, 0, 0⟩) <
      MOBAControls.waypointArrivalDist) :
    (MOBAControls.followPath heroPos s hero).1.currentPath = [] ∧
    (MOBAControls.followPath heroPos s hero).1.moveTarget = none ∧
    (MOBAControls.followPath heroPos s hero).2.moveInput = (0, 0) := by
  simp only [MOBAControls.followPath]
  rw [if_neg (by omega), if_pos hnear, if_pos (by omega)]
  exact ⟨rfl, rfl, rfl⟩

/-- C6 (amended): the invariant `waypointIndex < max(1, length(waypoints))`
is established by every path-computing operation (`navigateTo`,
`computePath`) and preserved by `MOBAHeroAI.followNavPath`; for
`MOBAControls.followPath` it is preserved whenever the resulting path is
non-empty, but on arrival at the final waypoint the path is cleared while
the advanced index is left behind, so the invariant as stated fails for the
(terminal, arrived) empty-path state. While a path is followed the waypoint
index never decreases, and arrival within the threshold of the final
waypoint is terminal: the path is cleared and the intent zeroed. -/
theorem waypoint_index_invariant :
    (∀ (ready : Bool) (q : Vec3 → Vec3 → List Vec3) (myPos target : Vec3)
        (ai : HeroAIState),
      (MOBAHeroAI.navigateTo ready q myPos target ai).navPathIndex <
        max 1 (MOBAHeroAI.navigateTo ready q myPos target ai).navPath.length) ∧
    (∀ (ready : Bool) (q : Vec3 → Vec3 → List Vec3) (heroPos target : Vec3)
        (s : MOBAControlsState),
      (MOBAControls.computePath ready q heroPos target s).currentWaypointIndex <
        max 1 (MOBAControls.computePath ready q heroPos target s).currentPath.length) ∧
    (∀ (myPos : Vec3) (mf : Bool) (ai : HeroAIState) (v : HeroUnit),
      ai.navPathIndex < max 1 ai.navPath.length →
      (MOBAHeroAI.followNavPath myPos mf ai v).1.navPathIndex <
        max 1 (MOBAHeroAI.followNavPath myPos mf ai v).1.navPath.length) ∧
    (∀ (myPos : Vec3) (mf : Bool) (ai : HeroAIState) (v : HeroUnit),
      ai.navPathIndex ≤ (MOBAHeroAI.followNavPath myPos mf ai v).1.navPathIndex) ∧
    (∀ (heroPos : Vec3) (s : MOBAControlsState) (hero : HeroUnit),
      s.currentWaypointIndex ≤
        (MOBAControls.followPath heroPos s hero).1.currentWaypointIndex) ∧
    (∀ (heroPos : Vec3) (s : MOBAControlsState) (hero : HeroUnit),
      s.currentWaypointIndex < s.currentPath.length →
      (MOBAControls.followPath heroPos s hero).1.currentPath ≠ [] →
      (MOBAControls.followPath heroPos s hero).1.currentWaypointIndex <
        (MOBAControls.followPath heroPos s hero).1.currentPath.length) ∧
    (∀ (heroPos : Vec3) (s : MOBAControlsState) (hero : HeroUnit),
      s.currentWaypointIndex + 1 = s.currentPath.length →
      dist3 heroPos (s.currentPath.getD s.currentWaypointIndex ⟨0, 0, 0⟩) <
        MOBAControls.waypointArrivalDist →
      (MOBAControls.followPath heroPos s hero).1.currentPath = [] ∧
      (MOBAControls.followPath heroPos s hero).1.moveTarget = none ∧
      (MOBAControls.followPath heroPos s hero).2.moveInput = (0, 0)) :=
  ⟨navigateTo_invariant, computePath_invariant, followNavPath_invariant,
   followNavPath_index_mono, followPath_index_mono,
   followPath_nonempty_invariant, followPath_final_arrival⟩

/-- C6 witness: the amended invariant statements at concrete states — a
two-waypoint path being followed from its start, and a one-waypoint path
whose (final) waypoint is reached. -/
theorem waypoint_index_invariant_witness :
    ((MOBAHeroAI.followNavPath ⟨0, 0, 0⟩ true
        ⟨.lane, [], 0, [⟨0, 0, 0⟩, ⟨6, 0, 0⟩], 0, 0⟩
        ⟨⟨0, 0, 0⟩, ⟨0, 0, 1⟩, 100, 100, none, (0, 0), (0, 0), 0⟩).1.navPathIndex <
      max 1 (MOBAHeroAI.followNavPath ⟨0, 0, 0⟩ true
        ⟨.lane, [], 0, [⟨0, 0, 0⟩, ⟨6, 0, 0⟩], 0, 0⟩
        ⟨⟨0, 0, 0⟩, ⟨0, 0, 1⟩, 100, 100, none, (0, 0), (0, 0), 0⟩).1.navPath.length) ∧
    (MOBAControls.followPath ⟨0, 0, 0⟩
        ⟨some ⟨0, 0, 0⟩, none, [⟨0, 0, 0⟩], 0, 0, ⟨0, 0, 0⟩, 0⟩
        ⟨⟨0, 0, 0⟩, ⟨0, 0, 1⟩, 100, 100, none, (0, 0), (0, 0), 0⟩).1.currentPath = [] := by
  constructor
  · exact waypoint_index_invariant.2.2.1 ⟨0, 0, 0⟩ true
      ⟨.lane, [], 0, [⟨0, 0, 0⟩, ⟨6, 0, 0⟩], 0, 0⟩
      ⟨⟨0, 0, 0⟩, ⟨0, 0, 1⟩, 100, 100, none, (0, 0), (0, 0), 0⟩ (by norm_num)
  · exact (waypoint_index_invariant.2.2.2.2.2.2 ⟨0, 0, 0⟩
      ⟨some ⟨0, 0, 0⟩, none, [⟨0, 0, 0⟩], 0, 0, ⟨0, 0, 0⟩, 0⟩
      ⟨⟨0, 0, 0⟩, ⟨0, 0, 1⟩, 100, 100, none, (0, 0), (0, 0), 0⟩ (by norm_num)
      (by norm_num [List.getD, dist3_self, MOBAControls.waypointArrivalDist])).1

/-! ### MOBAControls.update: goal handling and stuck detection -/

/-- Model of `MOBAControls.aimAndFire` (src/src/MOBAControls.js:607-633): turns the
body and turret toward the target and fires when roughly aimed. -/
def MOBAControls.aimAndFire (heroPos targetPos : Vec3) (hero : HeroUnit) : HeroUnit :=
  let d := MOBAHeroAI.angleDiff hero.forward heroPos targetPos
  let h1 := setMoveInput hero (clamp11 (d * 2)) 0
  let h2 := setTurretInput h1 (clamp11 (d * 3)) 0
  if |d| < 0.3 then fireHero h2 else h2

/-- The move-target handling at the end of `MOBAControls.update`
(src/src/MOBAControls.js:508-532). -/
def MOBAControls.moveHandling (s : MOBAControlsState) (hero : HeroUnit) :
    MOBAControlsState × HeroUnit :=
  let heroPos := hero.pos
  match s.moveTarget with
  | some mt =>
    if 0 < s.currentPath.length then
      if dist3 heroPos mt < 3 then
        ({ s with moveTarget := none, currentPath := [], currentWaypointIndex := 0 },
         setMoveInput hero 0 0)
      else MOBAControls.followPath heroPos s hero
    else
      if dist3 heroPos mt < 3 then
        ({ s with moveTarget := none }, setMoveInput hero 0 0)
      else
        let inp := MOBAControls.driveToward hero.forward heroPos mt
        (s, setMoveInput hero inp.1 inp.2)
  | none => (s, setMoveInput hero 0 0)

/-- Stuck detection followed by move handling — the part of
`MOBAControls.update` after the attack-target block
(src/src/MOBAControls.js:485-535). The stuck watchdog clears both goals,
the path and the index, zeroes the intent and resets its timer once the
hero has moved less than `stuckMinDist` for more than `stuckThreshold`
seconds. -/
def MOBAControls.updateRest (delta : ℝ) (s : MOBAControlsState)
    (hero : HeroUnit) : MOBAControlsState × HeroUnit :=
  let heroPos := hero.pos
  if s.moveTarget.isSome = true ∨ s.attackTarget.isSome = true then
    if dist3 heroPos s.lastStuckPos < MOBAControls.stuckMinDist then
      let t := s.stuckTimer + delta
      if MOBAControls.stuckThreshold < t then
        ({ s with moveTarget := none, attackTarget := none, currentPath := [],
                  currentWaypointIndex := 0, stuckTimer := 0,
                  lastStuckPos := heroPos },
         setMoveInput hero 0 0)
      else MOBAControls.moveHandling { s with stuckTimer := t } hero
    else MOBAControls.moveHandling { s with stuckTimer := 0, lastStuckPos := heroPos } hero
  else MOBAControls.moveHandling s hero

/-- Model of `MOBAControls.update` (src/src/MOBAControls.js:446-535). A live attack
target is handled first and that branch returns — so the stuck detection in
`updateRest` only ever runs with the attack goal already gone. -/
def MOBAControls.update (delta : ℝ) (ready : Bool)
    (findPath : Vec3 → Vec3 → List Vec3) (s : MOBAControlsState)
    (hero : HeroUnit) : MOBAControlsState × HeroUnit :=
  if hero.health ≤ 0 then (s, setMoveInput hero 0 0)
  else
    let heroPos := hero.pos
    match s.attackTarget with
    | some t =>
      if t.alive = false then
        MOBAControls.updateRest delta
          { s with attackTarget := none, currentPath := [] } hero
      else
        if hero.attackRange.getD 15 < dist3 heroPos t.pos then
          let s1 :=
            if s.currentPath.length = 0 ∨ s.attackPathTimer ≤ 0
            then { MOBAControls.computePath ready findPath heroPos t.pos s with
                     attackPathTimer := 1.0 }
            else s
          let s2 := { s1 with attackPathTimer := s1.attackPathTimer - delta }
          MOBAControls.followPath heroPos s2 hero
        else
          ({ s with currentPath := [] },
           MOBAControls.aimAndFire heroPos t.pos (setMoveInput hero 0 0))
    | none => MOBAControls.updateRest delta s hero

/-- C9: at the failing input — a hero pinned in place (it has moved 0 <
`stuckMinDist` from `lastStuckPos`) whose `stuckTimer` of 100 s has long
exceeded the 2 s stuck window, chasing a live attack target 100 units away —
`MOBAControls.update` neither clears the attack goal nor touches the stuck
timer, because the attack-target branch returns before the stuck check;
the claim (and the code's own stuck-detection comment, which says
"move/attack target") requires the goal to be abandoned on this tick. -/
theorem stuck_attack_goal_not_abandoned :
    ((MOBAControls.update 0.1 false (fun _ _ => [])
        ⟨none, some ⟨true, ⟨100, 0, 0⟩⟩, [], 0, 100, ⟨0, 0, 0⟩, 0.5⟩
        ⟨⟨0, 0, 0⟩, ⟨0, 0, 1⟩, 100, 100, none, (0, 0), (0, 0), 0⟩).1.attackTarget =
      some ⟨true, ⟨100, 0, 0⟩⟩) ∧
    ((MOBAControls.update 0.1 false (fun _ _ => [])
        ⟨none, some ⟨true, ⟨100, 0, 0⟩⟩, [], 0, 100, ⟨0, 0, 0⟩, 0.5⟩
        ⟨⟨0, 0, 0⟩, ⟨0, 0, 1⟩, 100, 100, none, (0, 0), (0, 0), 0⟩).1.stuckTimer = 100) := by
  have hd : dist3 ⟨0, 0, 0⟩ ⟨100, 0, 0⟩ = 100 :=
    dist3_eval _ _ 100 (by norm_num) (by norm_num)
  constructor <;>
    norm_num [MOBAControls.update, MOBAControls.computePath,
      MOBAControls.followPath, MOBAControls.waypointArrivalDist,
      Option.getD, List.getD, hd]

/-! ### Squad separation pass -/

/-- Modelled from the spec: the SquadController separation pass described in
the spec (post-movement, for every pair of alive followers closer than a
minimum separation distance, apply an equal-and-opposite positional nudge
proportional to the overlap and a fixed strength constant, scaled by elapsed
time) has no implementation under src — `InfantrySquad.update`
(src/src/ControlPoint.js:362-366) only ticks each soldier and no pairwise
separation code exists anywhere in the sources. This definition follows the
spec's words for one pair: when the pair is closer than `sepDist` (and not
coincident, so the pair axis exists), each member is pushed half the total
nudge `overlap * strength * delta` away from the other along the pair axis. -/
def separationPair (sepDist strength delta : ℝ) (pa pb : Vec3) : Vec3 × Vec3 :=
  let d := dist3 pa pb
  if 0 < d ∧ d < sepDist then
    let overlap := sepDist - d
    let push := overlap * strength * delta / 2
    let nx := (pa.x - pb.x) / d
    let ny := (pa.y - pb.y) / d
    let nz := (pa.z - pb.z) / d
    (⟨pa.x + nx * push, pa.y + ny * push, pa.z + nz * push⟩,
     ⟨pb.x - nx * push, pb.y - ny * push, pb.z - nz * push⟩)
  else (pa, pb)

/-- Helper: distance scales along a common factor applied to all coordinate
differences. -/
theorem dist3_scale (a b a' b' : Vec3) (c : ℝ) (hc : 0 ≤ c)
    (hx : b'.x - a'.x = (b.x - a.x) * c)
    (hy : b'.y - a'.y = (b.y - a.y) * c)
    (hz : b'.z - a'.z = (b.z - a.z) * c) :
    dist3 a' b' = c * dist3 a b := by
  simp only [dist3, hx, hy, hz]
  rw [show (((b.x - a.x) * c) ^ 2 + ((b.y - a.y) * c) ^ 2 + ((b.z - a.z) * c) ^ 2)
      = c ^ 2 * ((b.x - a.x) ^ 2 + (b.y - a.y) ^ 2 + (b.z - a.z) ^ 2) from by ring]
  rw [Real.sqrt_mul (sq_nonneg c), Real.sqrt_sq hc]

/-- C5: after one separation pass on a pair of followers closer than the
separation distance, the nudges are equal and opposite, proportional to the
overlap (scaled by the strength constant and elapsed time), and the pair's
distance strictly increases. (Spec-modelled: see `separationPair`.) -/
theorem separation_pass_increases_distance (sepDist strength delta : ℝ)
    (pa pb : Vec3) (hd : 0 < dist3 pa pb) (hsep : dist3 pa pb < sepDist)
    (hstr : 0 < strength) (hdel : 0 < delta) :
    ((separationPair sepDist strength delta pa pb).1.x - pa.x =
       -((separationPair sepDist strength delta pa pb).2.x - pb.x) ∧
     (separationPair sepDist strength delta pa pb).1.y - pa.y =
       -((separationPair sepDist strength delta pa pb).2.y - pb.y) ∧
     (separationPair sepDist strength delta pa pb).1.z - pa.z =
       -((separationPair sepDist strength delta pa pb).2.z - pb.z)) ∧
    dist3 (separationPair sepDist strength delta pa pb).1
        (separationPair sepDist strength delta pa pb).2 =
      dist3 pa pb + (sepDist - dist3 pa pb) * strength * delta ∧
    dist3 pa pb <
      dist3 (separationPair sepDist strength delta pa pb).1
        (separationPair sepDist strength delta pa pb).2 := by
  have hdne : dist3 pa pb ≠ 0 := ne_of_gt hd
  have hk : 0 < (sepDist - dist3 pa pb) * strength * delta := by
    have : 0 < sepDist - dist3 pa pb := by linarith
    positivity
  simp only [separationPair]
  rw [if_pos ⟨hd, hsep⟩]
  set d := dist3 pa pb with hdd
  refine ⟨⟨by ring, by ring, by ring⟩, ?_, ?_⟩
  · have hscale :
        dist3 ⟨pa.x + (pa.x - pb.x) / d * ((sepDist - d) * strength * delta / 2),
              pa.y + (pa.y - pb.y) / d * ((sepDist - d) * strength * delta / 2),
              pa.z + (pa.z - pb.z) / d * ((sepDist - d) * strength * delta / 2)⟩
              ⟨pb.x - (pa.x - pb.x) / d * ((sepDist - d) * strength * delta / 2),
              pb.y - (pa.y - pb.y) / d * ((sepDist - d) * strength * delta / 2),
              pb.z - (pa.z - pb.z) / d * ((sepDist - d) * strength * delta / 2)⟩ =
          (1 + (sepDist - d) * strength * delta / d) * dist3 pa pb := by
      refine dist3_scale pa pb _ _ (1 + (sepDist - d) * strength * delta / d)
        ?_ ?_ ?_ ?_
      · have : 0 < (sepDist - d) * strength * delta / d := div_pos hk hd
        linarith
      · show pb.x - (pa.x - pb.x) / d * ((sepDist - d) * strength * delta / 2) -
            (pa.x + (pa.x - pb.x) / d * ((sepDist - d) * strength * delta / 2)) =
          (pb.x - pa.x) * (1 + (sepDist - d) * strength * delta / d)
        field_simp
        ring
      · show pb.y - (pa.y - pb.y) / d * ((sepDist - d) * strength * delta / 2) -
            (pa.y + (pa.y - pb.y) / d * ((sepDist - d) * strength * delta / 2)) =
          (pb.y - pa.y) * (1 + (sepDist - d) * strength * delta / d)
        field_simp
        ring
      · show pb.z - (pa.z - pb.z) / d * ((sepDist - d) * strength * delta / 2) -
            (pa.z + (pa.z - pb.z) / d * ((sepDist - d) * strength * delta / 2)) =
          (pb.z - pa.z) * (1 + (sepDist - d) * strength * delta / d)
        field_simp
        ring
    rw [hscale, ← hdd]
    field_simp
    try ring
  · have h2 := hk
    have hmain :
        dist3 ⟨pa.x + (pa.x - pb.x) / d * ((sepDist - d) * strength * delta / 2),
              pa.y + (pa.y - pb.y) / d * ((sepDist - d) * strength * delta / 2),
              pa.z + (pa.z - pb.z) / d * ((sepDist - d) * strength * delta / 2)⟩
              ⟨pb.x - (pa.x - pb.x) / d * ((sepDist - d) * strength * delta / 2),
              pb.y - (pa.y - pb.y) / d * ((sepDist - d) * strength * delta / 2),
              pb.z - (pa.z - pb.z) / d * ((sepDist - d) * strength * delta / 2)⟩ =
          d + (sepDist - d) * strength * delta := by
      refine (dist3_scale pa pb _ _ (1 + (sepDist - d) * strength * delta / d)
        ?_ ?_ ?_ ?_).trans ?_
      · have : 0 < (sepDist - d) * strength * delta / d := div_pos hk hd
        linarith
      · field_simp
        ring
      · field_simp
        ring
      · field_simp
        ring
      · rw [← hdd]
        field_simp
        try ring
    rw [hmain]
    linarith

/-- C5 witness: the separation invariant at a concrete overlapping pair. -/
theorem separation_pass_increases_distance_witness :
    (0 : ℝ) < dist3 ⟨1, 0, 0⟩ ⟨0, 0, 0⟩ ∧ dist3 ⟨1, 0, 0⟩ ⟨0, 0, 0⟩ < 2 ∧
    dist3 ⟨1, 0, 0⟩ ⟨0, 0, 0⟩ <
      dist3 (separationPair 2 1 1 ⟨1, 0, 0⟩ ⟨0, 0, 0⟩).1
        (separationPair 2 1 1 ⟨1, 0, 0⟩ ⟨0, 0, 0⟩).2 := by
  have h1 : dist3 ⟨1, 0, 0⟩ ⟨0, 0, 0⟩ = 1 :=
    dist3_eval _ _ 1 (by norm_num) (by norm_num)
  refine ⟨by rw [h1]; norm_num, by rw [h1]; norm_num, ?_⟩
  exact (separation_pass_increases_distance 2 1 1 ⟨1, 0, 0⟩ ⟨0, 0, 0⟩
    (by rw [h1]; norm_num) (by rw [h1]; norm_num) (by norm_num) (by norm_num)).2.2

/-! ### Solo vehicle attack-state fire gating -/

/-- Model of `this.aimThreshold` (src/unnamed/part_011:43). -/
def AIController.aimThreshold : ℝ := 0.18

/-- Model of `this.fireCooldown` (src/unnamed/part_011:41). -/
def AIController.fireCooldown : ℝ := 1.5

/-- Model of `this.fireCooldownVariance` (src/unnamed/part_011:42). -/
def AIController.fireCooldownVariance : ℝ := 0.5

/-- Fire-relevant controller state of `AIController`. -/
structure SoloVehicleCtl where
  fireTimer : ℝ
  firedCount : ℕ

/-- The fire decision at the end of `AIController.doAttack`
(src/unnamed/part_011:316-327): the fire timer accumulates `delta`, the
effective cooldown is the base cooldown jittered by
`(Math.random() - 0.5) * variance` (the random draw is the `rand`
parameter), and the vehicle fires — resetting the timer to 0 — exactly when
the turret aim error `angleTo - turretAngle` is within the aim threshold
and the accumulated timer has reached the effective cooldown. -/
def AIController.doAttackFireStep (delta rand : ℝ) (forward myPos playerPos : Vec3)
    (turretAngle : ℝ) (c : SoloVehicleCtl) : SoloVehicleCtl :=
  let t := c.fireTimer + delta
  let aimError := angleTo forward myPos playerPos - turretAngle
  let effectiveCooldown :=
    AIController.fireCooldown + (rand - 0.5) * AIController.fireCooldownVariance
  if |aimError| < AIController.aimThreshold ∧ effectiveCooldown ≤ t then
    { fireTimer := 0, firedCount := c.firedCount + 1 }
  else { c with fireTimer := t }

/-- Model of `this.aimThreshold` of the original controller
(src/src/AIController.js:30). -/
def AIControllerLegacy.aimThreshold : ℝ := 0.15

/-- Model of `this.fireCooldown` of the original controller
(src/src/AIController.js:29); it has no variance field. -/
def AIControllerLegacy.fireCooldown : ℝ := 1.5

/-- Model of the fire decision at the end of the original
`AIController.doAttack` (src/src/AIController.js:160-167): the fire timer
accumulates `delta` and the vehicle fires — resetting the timer to 0 —
exactly when the turret aim error `angleTo - turretAngle` is within the
0.15 rad threshold and the accumulated timer has reached the fixed 1.5 s
cooldown; no random draw enters the decision. -/
def AIControllerLegacy.doAttackFireStep (delta : ℝ) (forward myPos playerPos : Vec3)
    (turretAngle : ℝ) (c : SoloVehicleCtl) : SoloVehicleCtl :=
  let t := c.fireTimer + delta
  let aimError := angleTo forward myPos playerPos - turretAngle
  if |aimError| < AIControllerLegacy.aimThreshold ∧
      AIControllerLegacy.fireCooldown ≤ t then
    { fireTimer := 0, firedCount := c.firedCount + 1 }
  else { c with fireTimer := t }

/-- Helper: the concrete straight-ahead angle case: forward `+Z`, target
straight ahead in `+Z`, angle 0. -/
theorem angleTo_straight_ahead :
    angleTo ⟨0, 0, 1⟩ ⟨0, 0, 0⟩ ⟨0, 0, 10⟩ = 0 := by
  have hf : forwardDirXZ ⟨0, 0, 1⟩ = ⟨0, 0, 1⟩ := by
    simp only [forwardDirXZ, setY0]
    rw [normalize3_eval _ 1 (norm3_eval 0 0 1 1 (by norm_num) (by norm_num)) (by norm_num)]
    norm_num
  have ht : toTargetDir ⟨0, 0, 0⟩ ⟨0, 0, 10⟩ = ⟨0, 0, 1⟩ := by
    simp only [toTargetDir, setY0]
    norm_num
    rw [normalize3_eval _ 10 (norm3_eval 0 0 10 10 (by norm_num) (by norm_num)) (by norm_num)]
    norm_num
  simp only [angleTo, hf, ht, crossY, dot3, atan2]
  norm_num
  have h1 : ((⟨1, 0⟩ : ℂ)) = 1 := by
    apply Complex.ext <;> simp
  rw [h1, Complex.arg_one]

/-- C10: counterexample. The claim also cites the original
`AIController.doAttack` (src/src/AIController.js:160-168), which fires on a
fixed 1.5 s cooldown with no random variance term: with zero aim error and
an accumulated fire timer of 1.6 s it fires, even though the claimed
jittered cooldown for the admissible random draw 0.9 — namely
`1.5 + (0.9 - 0.5) * 0.5 = 1.7` s — has not elapsed, so its fire trigger is
not gated by a jittered cooldown. -/
theorem legacy_attack_fire_ignores_jitter :
    (AIControllerLegacy.doAttackFireStep 0.5 ⟨0, 0, 1⟩ ⟨0, 0, 0⟩ ⟨0, 0, 10⟩ 0
      ⟨1.1, 0⟩).firedCount = 0 + 1 ∧
    (1.1 : ℝ) + 0.5 <
      AIController.fireCooldown +
        ((0.9 : ℝ) - 0.5) * AIController.fireCooldownVariance := by
  constructor
  · simp only [AIControllerLegacy.doAttackFireStep, angleTo_straight_ahead,
      AIControllerLegacy.aimThreshold, AIControllerLegacy.fireCooldown]
    rw [if_pos (by norm_num)]
  · simp only [AIController.fireCooldown, AIController.fireCooldownVariance]
    norm_num

/-- C10 (amended): in the attack state the rewritten controller (part_011)
fires only when the turret aim error is within the 0.18 rad aim threshold
and the jittered cooldown (1.5 s base plus the `(rand - 0.5) * 0.5`
variance term) has elapsed on the accumulated fire timer; the original
controller (src/src/AIController.js) fires only when the aim error is
within its 0.15 rad threshold and its fixed 1.5 s cooldown — with no
random variance — has elapsed. In both variants firing resets the fire
timer to zero, and a non-firing tick just accumulates `delta`. -/
theorem attack_fire_gating (delta rand : ℝ) (forward myPos playerPos : Vec3)
    (turretAngle : ℝ) (c : SoloVehicleCtl) :
    ((AIController.doAttackFireStep delta rand forward myPos playerPos
        turretAngle c).firedCount = c.firedCount + 1 →
      |angleTo forward myPos playerPos - turretAngle| < AIController.aimThreshold ∧
      AIController.fireCooldown + (rand - 0.5) * AIController.fireCooldownVariance ≤
        c.fireTimer + delta ∧
      (AIController.doAttackFireStep delta rand forward myPos playerPos
        turretAngle c).fireTimer = 0) ∧
    ((AIController.doAttackFireStep delta rand forward myPos playerPos
        turretAngle c).firedCount = c.firedCount →
      (AIController.doAttackFireStep delta rand forward myPos playerPos
        turretAngle c).fireTimer = c.fireTimer + delta) ∧
    ((AIControllerLegacy.doAttackFireStep delta forward myPos playerPos
        turretAngle c).firedCount = c.firedCount + 1 →
      |angleTo forward myPos playerPos - turretAngle| <
        AIControllerLegacy.aimThreshold ∧
      AIControllerLegacy.fireCooldown ≤ c.fireTimer + delta ∧
      (AIControllerLegacy.doAttackFireStep delta forward myPos playerPos
        turretAngle c).fireTimer = 0) ∧
    ((AIControllerLegacy.doAttackFireStep delta forward myPos playerPos
        turretAngle c).firedCount = c.firedCount →
      (AIControllerLegacy.doAttackFireStep delta forward myPos playerPos
        turretAngle c).fireTimer = c.fireTimer + delta) := by
  refine ⟨?_, ?_, ?_, ?_⟩
  · simp only [AIController.doAttackFireStep]
    split_ifs with h
    · exact fun _ => ⟨h.1, h.2, rfl⟩
    · exact fun he => absurd he (by simp)
  · simp only [AIController.doAttackFireStep]
    split_ifs with h
    · exact fun he => absurd he (by simp)
    · exact fun _ => rfl
  · simp only [AIControllerLegacy.doAttackFireStep]
    split_ifs with h
    · exact fun _ => ⟨h.1, h.2, rfl⟩
    · exact fun he => absurd he (by simp)
  · simp only [AIControllerLegacy.doAttackFireStep]
    split_ifs with h
    · exact fun he => absurd he (by simp)
    · exact fun _ => rfl

/-- C10 witness: concrete firing ticks for both variants — aim error 0,
timer 2 s beyond the cooldown (neutral jitter draw 0.5 for the rewritten
controller) — fire and reset the timer. -/
theorem attack_fire_gating_witness :
    (AIController.doAttackFireStep 0.5 0.5 ⟨0, 0, 1⟩ ⟨0, 0, 0⟩ ⟨0, 0, 10⟩ 0
      ⟨2, 0⟩).firedCount = 0 + 1 ∧
    |angleTo ⟨0, 0, 1⟩ ⟨0, 0, 0⟩ ⟨0, 0, 10⟩ - 0| < AIController.aimThreshold ∧
    AIController.fireCooldown + ((0.5 : ℝ) - 0.5) * AIController.fireCooldownVariance ≤
      (2 : ℝ) + 0.5 ∧
    (AIController.doAttackFireStep 0.5 0.5 ⟨0, 0, 1⟩ ⟨0, 0, 0⟩ ⟨0, 0, 10⟩ 0
      ⟨2, 0⟩).fireTimer = 0 ∧
    (AIControllerLegacy.doAttackFireStep 0.5 ⟨0, 0, 1⟩ ⟨0, 0, 0⟩ ⟨0, 0, 10⟩ 0
      ⟨2, 0⟩).firedCount = 0 + 1 ∧
    |angleTo ⟨0, 0, 1⟩ ⟨0, 0, 0⟩ ⟨0, 0, 10⟩ - 0| < AIControllerLegacy.aimThreshold ∧
    AIControllerLegacy.fireCooldown ≤ (2 : ℝ) + 0.5 ∧
    (AIControllerLegacy.doAttackFireStep 0.5 ⟨0, 0, 1⟩ ⟨0, 0, 0⟩ ⟨0, 0, 10⟩ 0
      ⟨2, 0⟩).fireTimer = 0 := by
  have hfire : (AIController.doAttackFireStep 0.5 0.5 ⟨0, 0, 1⟩ ⟨0, 0, 0⟩
      ⟨0, 0, 10⟩ 0 ⟨2, 0⟩).firedCount = 0 + 1 := by
    simp only [AIController.doAttackFireStep, angleTo_straight_ahead,
      AIController.aimThreshold, AIController.fireCooldown,
      AIController.fireCooldownVariance]
    rw [if_pos (by norm_num)]
  have hfireL : (AIControllerLegacy.doAttackFireStep 0.5 ⟨0, 0, 1⟩ ⟨0, 0, 0⟩
      ⟨0, 0, 10⟩ 0 ⟨2, 0⟩).firedCount = 0 + 1 := by
    simp only [AIControllerLegacy.doAttackFireStep, angleTo_straight_ahead,
      AIControllerLegacy.aimThreshold, AIControllerLegacy.fireCooldown]
    rw [if_pos (by norm_num)]
  have h := (attack_fire_gating 0.5 0.5 ⟨0, 0, 1⟩ ⟨0, 0, 0⟩ ⟨0, 0, 10⟩ 0
    ⟨2, 0⟩).1 hfire
  have hL := (attack_fire_gating 0.5 0.5 ⟨0, 0, 1⟩ ⟨0, 0, 0⟩ ⟨0, 0, 10⟩ 0
    ⟨2, 0⟩).2.2.1 hfireL
  exact ⟨hfire, h.1, h.2.1, h.2.2, hfireL, hL.1, hL.2.1, hL.2.2⟩

end TankAI
